import Mathlib

/-!
Verification development for the Substrate (Polkadot/Kusama) staking and
metadata core of a multi-chain wallet protocol library.

The TypeScript sources are embedded shallowly: every network fetch becomes an
explicit argument (an Option value: absent storage is a legitimate chain
state), BigNumber arithmetic is modelled over the rationals with the library
default rounding (20 decimal places, round half away from zero, applied to
division results only), and JavaScript double-precision arithmetic (used by
the chunking utility) is modelled exactly over the rationals with 53-bit
round-to-nearest-even.
-/

/-! ## BigNumber (bignumber.js 9.0.0, default configuration)

The vendored bignumber.js dependency keeps decimal values exactly for plus,
minus and times; dividedBy rounds its result to DECIMAL_PLACES = 20 decimal
places with ROUNDING_MODE = 4 (round half away from zero).  toFixed(0) rounds
to an integer with the same rounding mode. -/

namespace BigNumber

/-- Round half away from zero, as bignumber.js ROUND_HALF_UP does. -/
def roundHalfAwayFromZero (x : ℚ) : ℤ :=
  if 0 ≤ x then ⌊x + 1 / 2⌋ else -⌊-x + 1 / 2⌋

/-- Division as bignumber.js dividedBy: the exact quotient rounded to 20
decimal places, half away from zero. -/
def dividedBy (x y : ℚ) : ℚ :=
  ((roundHalfAwayFromZero (x / y * 10 ^ 20) : ℚ)) / 10 ^ 20

/-- Rounding to an integer as bignumber.js toFixed(0) does. -/
def toFixed0 (x : ℚ) : ℤ :=
  roundHalfAwayFromZero x

theorem roundHalfAwayFromZero_intCast (n : ℤ) :
    roundHalfAwayFromZero (n : ℚ) = n := by
  unfold roundHalfAwayFromZero
  have hhalf : ⌊(1 : ℚ) / 2⌋ = 0 := by norm_num
  by_cases h : (0 : ℚ) ≤ (n : ℚ)
  · rw [if_pos h, add_comm, Int.floor_add_int, hhalf, zero_add]
  · rw [if_neg h]
    have : -(n : ℚ) = ((-n : ℤ) : ℚ) := by push_cast; ring
    rw [this, add_comm, Int.floor_add_int, hhalf, zero_add, neg_neg]

/-- Whenever the exact quotient has at most 20 decimal places, dividedBy is
exact division. -/
theorem dividedBy_eq_of_den_dvd (x y : ℚ) (h : (x / y * 10 ^ 20).den = 1) :
    dividedBy x y = x / y := by
  unfold dividedBy
  have hq : ((x / y * 10 ^ 20).num : ℚ) = x / y * 10 ^ 20 := by
    rw [Rat.den_eq_one_iff] at h
    exact h
  rw [show x / y * 10 ^ 20 = ((x / y * 10 ^ 20).num : ℚ) from hq.symm,
    roundHalfAwayFromZero_intCast, hq]
  rw [mul_div_assoc]
  norm_num

end BigNumber

/-! ## SubstrateAccountController.getTransferableBalance

Embeds the controller method: the account info fetched from the node (absent
when the account does not exist on chain) and the existential deposit
constant become arguments; the existential deposit is only fetched, and only
subtracted, when excludeExistentialDeposit is set. -/

namespace SubstrateAccountController

/-- Balance components of the on-chain account info (System.Account). -/
structure SubstrateAccountData where
  free : ℤ
  reserved : ℤ
  miscFrozen : ℤ
  feeFrozen : ℤ
  deriving DecidableEq, Repr

/-- Shallow embedding of SubstrateAccountController.getTransferableBalance.
The two concurrent fetches become the accountInfo and existentialDeposit
arguments; when excludeExistentialDeposit is false the constant is not
fetched (minBalance is null) and minus(minBalance or 0) subtracts zero. -/
def getTransferableBalance (accountInfo : Option SubstrateAccountData)
    (existentialDeposit : ℤ) (excludeExistentialDeposit ignoreFees : Bool) : ℤ :=
  let minBalance : Option ℤ :=
    if excludeExistentialDeposit then some existentialDeposit else none
  match accountInfo with
  | none => 0
  | some d =>
      d.free - d.reserved - (if ignoreFees then d.miscFrozen else d.feeFrozen) -
        minBalance.getD 0

end SubstrateAccountController

/-! ## Staking data model

Accounts are identified by their decoded address (abstracted to a natural
number; only equality of addresses is ever used).  Stakes, reward points and
reward amounts are BigNumber values, modelled as rationals. -/

/-- One entry of a validator exposure list: a nominator address paired with
the stake backing the validator (SCALETuple of SCALEAccountId and value). -/
structure SubstrateExposureEntry where
  addr : ℕ
  stake : ℚ
  deriving DecidableEq, Repr

/-- Validator exposure for an era (SubstrateExposure): total stake, the
validator's own stake and the contributing nominators. -/
structure SubstrateExposure where
  total : ℚ
  own : ℚ
  others : List SubstrateExposureEntry
  deriving DecidableEq, Repr

/-- One entry of the per-validator reward points list. -/
structure SubstrateIndividualPoints where
  addr : ℕ
  points : ℚ
  deriving DecidableEq, Repr

/-- Era reward points (SubstrateEraRewardPoints): the era total and the
per-validator breakdown. -/
structure SubstrateEraRewardPoints where
  total : ℚ
  individual : List SubstrateIndividualPoints
  deriving DecidableEq, Repr

/-- Nomination status reported by the controller. -/
inductive SubstrateNominationStatus where
  | active
  | inactive
  | oversubscribed
  deriving DecidableEq, Repr

/-! ## SubstrateAccountController.getNominationStatus

The method resolves the era (rejecting when no era is given and the active
era cannot be fetched), returns undefined when the nominator does not
nominate the given validator, INACTIVE when the validator has no recorded
exposure or the nominator does not appear in it, and otherwise checks the
oversubscription threshold of 256 against the nominator's position in the
stake-descending (stable) ordering of the exposure list. -/

namespace SubstrateAccountController

/-- Stable insertion of an exposure entry into a stake-descending list: the
entry is placed before the first element of not-greater stake, so that
entries of equal stake keep their original relative order, exactly as the
stable JavaScript sort with comparator (a, b) => b.stake - a.stake. -/
def insertByStakeDesc (x : SubstrateExposureEntry) :
    List SubstrateExposureEntry → List SubstrateExposureEntry
  | [] => [x]
  | y :: ys => if y.stake ≤ x.stake then x :: y :: ys else y :: insertByStakeDesc x ys

/-- Stable stake-descending sort of an exposure list. -/
def sortByStakeDesc : List SubstrateExposureEntry → List SubstrateExposureEntry
  | [] => []
  | x :: xs => insertByStakeDesc x (sortByStakeDesc xs)

/-- Position of the nominator in the stake-descending ordering: the sorted
list is mapped to addresses and indexOf returns the first matching index,
or -1 when absent (it is never absent where the code consults it). -/
def sortedPosition (others : List SubstrateExposureEntry) (nominator : ℕ) : ℤ :=
  match (sortByStakeDesc others).findIdx? (fun e => e.addr == nominator) with
  | some i => (i : ℤ)
  | none => -1

/-- Shallow embedding of SubstrateAccountController.getNominationStatus.
Fetched state becomes arguments: the active era index (absent when the fetch
fails), the nomination targets of the nominator (absent when not
nominating) and the validator exposure for the resolved era. -/
def getNominationStatus (nominator validator : ℕ) (era : Option ℕ)
    (activeEra : Option ℕ) (nominations : Option (List ℕ))
    (exposure : Option SubstrateExposure) :
    Except String (Option SubstrateNominationStatus) :=
  let eraIndex : Option ℕ := match era with
    | some e => some e
    | none => activeEra
  match eraIndex with
  | none => Except.error "Could not fetch active era"
  | some _ =>
    match nominations with
    | none => Except.ok none
    | some targets =>
      if ¬ (targets.any (fun t => t == validator)) then Except.ok none
      else
        match exposure with
        | none => Except.ok (some SubstrateNominationStatus.inactive)
        | some exp =>
          if ¬ (exp.others.any (fun e => e.addr == nominator)) then
            Except.ok (some SubstrateNominationStatus.inactive)
          else
            let isOversubscribed := decide (256 < exp.others.length)
            if isOversubscribed then
              if 256 < sortedPosition exp.others nominator then
                Except.ok (some SubstrateNominationStatus.oversubscribed)
              else Except.ok (some SubstrateNominationStatus.active)
            else Except.ok (some SubstrateNominationStatus.active)

end SubstrateAccountController

/-! ## SubstrateAccountController.getAvailableStakingActions -/

/-- Era election status (SubstrateElectionStatus): the staking election is
either closed or open. -/
inductive SubstrateElectionStatus where
  | Close
  | Open
  deriving DecidableEq, Repr

/-- Staking action kinds (SubstrateStakingActionType). -/
inductive SubstrateStakingActionType where
  | bondNominate
  | bondExtra
  | nominate
  | unbond
  | rebondNominate
  | rebondExtra
  | cancelNomination
  | changeNomination
  | withdrawUnbonded
  deriving DecidableEq, Repr

/-- A delegation action offered to the caller: its kind and the named
arguments it requires. -/
structure DelegatorAction where
  type : SubstrateStakingActionType
  args : List String
  deriving DecidableEq, Repr

namespace SubstrateAccountController

/-- A single locked (still unbonding) chunk in the staking details. -/
structure SubstrateLockedDetails where
  value : ℚ
  expectedUnlock : ℚ
  deriving DecidableEq, Repr

/-- The slice of SubstrateStakingDetails consulted by the eligibility rules:
the active bond, the still-locked unbonding chunks and the total already
unlocked (withdrawable) amount. -/
structure SubstrateStakingDetails where
  active : ℤ
  locked : List SubstrateLockedDetails
  unlocked : ℤ
  deriving DecidableEq, Repr

/-- Stable insertion by action-type ordinal (ascending), matching the stable
JavaScript sort with comparator (a, b) => a.type - b.type. -/
def insertByOrdinal (ord : SubstrateStakingActionType → ℤ) (x : DelegatorAction) :
    List DelegatorAction → List DelegatorAction
  | [] => [x]
  | y :: ys => if ord x.type ≤ ord y.type then x :: y :: ys
      else y :: insertByOrdinal ord x ys

/-- Stable sort of the collected actions by action-type ordinal. -/
def sortByOrdinal (ord : SubstrateStakingActionType → ℤ) :
    List DelegatorAction → List DelegatorAction
  | [] => []
  | x :: xs => insertByOrdinal ord x (sortByOrdinal ord xs)

/-- Shallow embedding of SubstrateAccountController.getAvailableStakingActions.
Fetched state becomes arguments; the numeric enum values of
SubstrateStakingActionType live in a module outside the embedded sources, so
the ordinal used by the final deterministic sort is a parameter.  The
election status argument is the decoded Staking.EraElectionStatus storage
value (absent when the storage has no value, which the code treats as a
closed election). -/
def getAvailableStakingActions (stakingDetails : Option SubstrateStakingDetails)
    (nominations : Option (List ℕ)) (validatorIds : List ℕ)
    (maxDelegationValue : ℤ) (existentialDeposit : ℤ)
    (electionStatus : Option SubstrateElectionStatus)
    (ord : SubstrateStakingActionType → ℤ) : List DelegatorAction :=
  let currentValidators : List ℕ := nominations.getD []
  let validatorAddresses : List ℕ := validatorIds
  let isBonded : Bool := decide (0 < (stakingDetails.map (·.active)).getD 0)
  let isDelegating : Bool := nominations.isSome
  let isUnbonding : Bool := match stakingDetails with
    | some sd => decide (0 < sd.locked.length)
    | none => false
  let minBondingValue : ℤ := existentialDeposit
  let minDelegationValue : ℤ := 1
  let isElectionClosed : Bool := decide (electionStatus ≠ some SubstrateElectionStatus.Open)
  let hasFundsToWithdraw : Bool := decide (0 < (stakingDetails.map (·.unlocked)).getD 0)
  let actions : List DelegatorAction :=
    (if decide (minBondingValue < maxDelegationValue) && !isBonded && !isUnbonding
        && isElectionClosed then
      [DelegatorAction.mk SubstrateStakingActionType.bondNominate
        ["targets", "controller", "value", "payee"]]
    else []) ++
    (if decide (minDelegationValue < maxDelegationValue) && isBonded && !isUnbonding
        && isElectionClosed then
      [DelegatorAction.mk SubstrateStakingActionType.bondExtra ["value"]]
    else []) ++
    (if isBonded && !isDelegating && !isUnbonding && isElectionClosed then
      [DelegatorAction.mk SubstrateStakingActionType.nominate ["targets"],
       DelegatorAction.mk SubstrateStakingActionType.unbond ["value"]]
    else []) ++
    (if isUnbonding && !isDelegating && isElectionClosed then
      [DelegatorAction.mk SubstrateStakingActionType.rebondNominate ["targets", "value"]]
    else []) ++
    (if isUnbonding && isDelegating && isElectionClosed then
      [DelegatorAction.mk SubstrateStakingActionType.rebondExtra ["value"]]
    else []) ++
    (if isDelegating && isElectionClosed then
      (if validatorAddresses.all (fun v => currentValidators.any (fun c => c == v))
          && validatorAddresses.length == currentValidators.length then
        [DelegatorAction.mk SubstrateStakingActionType.cancelNomination ["value"]]
      else if 0 < validatorAddresses.length then
        [DelegatorAction.mk SubstrateStakingActionType.changeNomination ["targets"]]
      else [])
    else []) ++
    (if hasFundsToWithdraw && isElectionClosed then
      [DelegatorAction.mk SubstrateStakingActionType.withdrawUnbonded []]
    else [])
  sortByOrdinal ord actions

end SubstrateAccountController

/-! ## SubstrateAccountController reward computation -/

namespace SubstrateAccountController

/-- Shallow embedding of SubstrateAccountController.calculateValidatorReward:
validatorPoints.dividedBy(totalPoints).multipliedBy(totalReward), with
dividedBy rounding to 20 decimal places and multipliedBy exact. -/
def calculateValidatorReward (totalReward totalPoints validatorPoints : ℚ) : ℚ :=
  BigNumber.dividedBy validatorPoints totalPoints * totalReward

/-- Shallow embedding of SubstrateAccountController.calculateNominatorReward:
(1 - commission / 10^9) * validatorReward * (nominatorStake / totalStake),
with both divisions rounding to 20 decimal places (commission is Perbill,
parts per billion). -/
def calculateNominatorReward (validatorReward validatorCommission totalStake
    nominatorStake : ℚ) : ℚ :=
  let nominatorShare := BigNumber.dividedBy nominatorStake totalStake
  (1 - BigNumber.dividedBy validatorCommission 1000000000) * validatorReward *
    nominatorShare

/-- The per-validator data fetched for one era in
calculateEraNominatorReward: the validator address, its commission (from
ErasValidatorPrefs, absent when the storage has no value) and its clipped
exposure (from ErasStakersClipped, absent likewise). -/
structure EraValidatorData where
  validator : ℕ
  commission : Option ℚ
  exposure : Option SubstrateExposure
  deriving DecidableEq, Repr

/-- One era's reward entry as assembled by calculateEraNominatorReward:
the era, the summed amount rendered with toFixed(0), the exposure indices
per validator (findIndex yields -1 when the account is not listed; a
validator with absent exposure is filtered out), and the timestamp patched
in afterwards by getNominatorRewards. -/
structure SubstrateNominatorRewardDetails where
  eraIndex : ℤ
  amount : ℤ
  exposures : List (ℕ × ℤ)
  timestamp : ℚ
  deriving DecidableEq, Repr

/-- The reward contribution of a single validator for one era, when every
prerequisite is present: commission, exposure, the validator's reward points
and the nominator's stake inside the exposure.  Any absent prerequisite
yields none (the code's guarded branch returning null). -/
def eraValidatorContribution (reward : ℚ) (rewardPoints : SubstrateEraRewardPoints)
    (accountId : ℕ) (vd : EraValidatorData) : Option ℚ :=
  let validatorPoints : Option ℚ :=
    (rewardPoints.individual.find? (fun ip => ip.addr == vd.validator)).map (·.points)
  let nominatorStake : Option ℚ :=
    vd.exposure.bind (fun e => (e.others.find? (fun o => o.addr == accountId)).map (·.stake))
  match vd.commission, vd.exposure, validatorPoints, nominatorStake with
  | some c, some e, some p, some s =>
      some (calculateNominatorReward (calculateValidatorReward reward rewardPoints.total p)
        c e.total s)
  | _, _, _, _ => none

/-- Shallow embedding of SubstrateAccountController.calculateEraNominatorReward.
The three concurrent fetches become the reward, rewardPoints and
validatorData arguments; a missing era reward pool or missing era reward
points, or a validator list in which no validator has complete data, yields
null rather than a partial entry. -/
def calculateEraNominatorReward (accountId : ℕ) (eraIndex : ℤ)
    (reward : Option ℚ) (rewardPoints : Option SubstrateEraRewardPoints)
    (validatorData : List EraValidatorData) : Option SubstrateNominatorRewardDetails :=
  match reward, rewardPoints with
  | some rw, some rp =>
    let partialRewards : List ℚ :=
      validatorData.filterMap (eraValidatorContribution rw rp accountId)
    if partialRewards.isEmpty then none
    else
      some (SubstrateNominatorRewardDetails.mk eraIndex
        (BigNumber.toFixed0 (partialRewards.foldl (· + ·) 0))
        (validatorData.filterMap (fun vd =>
          vd.exposure.map (fun e =>
            (vd.validator,
              match e.others.findIdx? (fun o => o.addr == accountId) with
              | some i => (i : ℤ)
              | none => -1))))
        0)
  | _, _ => none

/-- The timestamp patch applied by getNominatorRewards to a non-null entry:
JavaScript's (partial.eraIndex || activeEra) treats era 0 as falsy and
substitutes the active era. -/
def patchTimestamp (activeEraIndex : ℤ) (activeEraStart : Option ℚ)
    (expectedEraDuration : ℚ) (e : SubstrateNominatorRewardDetails) :
    SubstrateNominatorRewardDetails :=
  let rewardEra : ℤ := if e.eraIndex = 0 then activeEraIndex else e.eraIndex
  let erasPassed : ℤ := activeEraIndex - rewardEra
  SubstrateNominatorRewardDetails.mk e.eraIndex e.amount e.exposures
    (match activeEraStart with
     | some start => start - expectedEraDuration * ((erasPassed : ℚ) - 1)
     | none => 0)

/-- The data fetched for one era of a nominator-rewards query. -/
structure EraInput where
  eraIndex : ℤ
  reward : Option ℚ
  rewardPoints : Option SubstrateEraRewardPoints
  validatorData : List EraValidatorData
  deriving Repr

/-- Shallow embedding of SubstrateAccountController.getNominatorRewards:
each era is computed independently by calculateEraNominatorReward, non-null
entries get their timestamp patched, and null entries are filtered out. -/
def getNominatorRewards (accountId : ℕ) (activeEraIndex : ℤ)
    (activeEraStart : Option ℚ) (expectedEraDuration : ℚ)
    (eraData : List EraInput) : List SubstrateNominatorRewardDetails :=
  (eraData.map (fun d =>
    (calculateEraNominatorReward accountId d.eraIndex d.reward d.rewardPoints
      d.validatorData).map
        (patchTimestamp activeEraIndex activeEraStart expectedEraDuration))).filterMap id

end SubstrateAccountController

/-! ## PolkadotNodeClient.getRewards (legacy implementation)

The older Polkadot node client computes nominator rewards inline.  In
contrast to the controller above, a validator with absent preferences or
absent clipped exposure contributes new BigNumber(0) to the era total, and
the era entry is still pushed whenever the era reward, the era reward points
and the staking ledger are present. -/

namespace PolkadotNodeClient

/-- The slice of the staking ledger consulted by getRewards: the last
collected reward era, when any. -/
structure PolkadotLedger where
  lastReward : Option ℤ
  deriving DecidableEq, Repr

/-- One entry of the legacy reward list (PolkadotReward). -/
structure PolkadotReward where
  eraIndex : ℤ
  amount : ℚ
  exposures : List (ℕ × ℤ)
  timestamp : ℚ
  collected : Bool
  deriving DecidableEq, Repr

/-- The per-era, per-validator reward term of the legacy getRewards: when
the validator's commission and clipped exposure are both present, missing
reward points or a missing nominator stake default to zero via JavaScript
or-chains; when either is absent the term is new BigNumber(0). -/
def rewardTerm (address validator : ℕ) (reward : ℚ)
    (rewardPoints : SubstrateEraRewardPoints)
    (commission : Option ℚ) (exposure : Option SubstrateExposure) : ℚ :=
  match commission, exposure with
  | some c, some e =>
    let validatorReward : ℚ :=
      match (rewardPoints.individual.find? (fun ip => ip.addr == validator)).map
          (·.points) with
      | some p => BigNumber.dividedBy p rewardPoints.total * reward
      | none => 0
    let nominatorStake : ℚ :=
      match (e.others.find? (fun o => o.addr == address)).map (·.stake) with
      | some s => s
      | none => 0
    let nominatorShare := BigNumber.dividedBy nominatorStake e.total
    (1 - BigNumber.dividedBy c 1000000000) * validatorReward * nominatorShare
  | _, _ => 0

/-- Stable insertion by era index (descending), matching the final
JavaScript sort with comparator (a, b) => b.eraIndex - a.eraIndex. -/
def insertByEraDesc (x : PolkadotReward) : List PolkadotReward → List PolkadotReward
  | [] => [x]
  | y :: ys => if y.eraIndex ≤ x.eraIndex then x :: y :: ys
      else y :: insertByEraDesc x ys

/-- Stable era-descending sort of the legacy reward list. -/
def sortByEraDesc : List PolkadotReward → List PolkadotReward
  | [] => []
  | x :: xs => insertByEraDesc x (sortByEraDesc xs)

/-- Shallow embedding of PolkadotNodeClient.getRewards.  Fetches become the
function arguments getValidatorReward, getRewardPoints, commissionOf (the
legacy getValidatorPrefs has no era parameter), stakersClipped and ledger.
An era is pushed when its reward, its reward points and the ledger are
present; validators with absent commission or exposure contribute zero. -/
def getRewards (address : ℕ) (validators : List ℕ) (currentEra : ℤ) (limit : ℕ)
    (getValidatorReward : ℤ → Option ℚ)
    (getRewardPoints : ℤ → Option SubstrateEraRewardPoints)
    (commissionOf : ℕ → Option ℚ)
    (stakersClipped : ℤ → ℕ → Option SubstrateExposure)
    (ledger : Option PolkadotLedger) : List PolkadotReward :=
  let eras : List ℤ := (List.range limit).map (fun i => currentEra - 1 - (i : ℤ))
  let rewards : List PolkadotReward := eras.filterMap (fun era =>
    match getValidatorReward era, getRewardPoints era, ledger with
    | some reward, some rewardPoints, some stakingLedger =>
      let total : ℚ := (validators.map (fun v =>
        rewardTerm address v reward rewardPoints (commissionOf v)
          (stakersClipped era v))).foldl (· + ·) 0
      some (PolkadotReward.mk era total
        (validators.filterMap (fun v =>
          (stakersClipped era v).map (fun e =>
            (v, match e.others.findIdx? (fun o => o.addr == address) with
                | some i => (i : ℤ)
                | none => -1))))
        0
        (match stakingLedger.lastReward with
         | some lr => decide ((era : ℤ) ≤ lr)
         | none => false))
    | _, _, _ => none)
  sortByEraDesc rewards

end PolkadotNodeClient

/-! ## Metadata.decode -/

/-- Failure modes of metadata decoding: a wrong magic marker raises
InvalidValueError, an unimplemented schema version raises UnsupportedError,
and a truncated buffer is a SCALE decode failure. -/
inductive MetadataDecodeError where
  | invalidMagic
  | unsupportedVersion (v : ℕ)
  | truncated
  | scaleError
  deriving DecidableEq, Repr

/-- The queryable metadata produced by a successful decode (its inner shape
is irrelevant to the decode-failure contract; only its identity matters). -/
structure MetadataDecorator where
  specVersion : ℕ
  deriving DecidableEq, Repr

/-- Modelled from the spec: SCALE fixed-width integers are little-endian
(the SCALEDecoder.decodeNextInt primitive lives outside the embedded
sources).  Reads bits / 8 bytes, least significant first, and returns the
value together with the remaining bytes; fails on a buffer shorter than the
declared width. -/
def decodeNextIntLE (bits : ℕ) (bytes : List ℕ) : Option (ℕ × List ℕ) :=
  let byteCount := bits / 8
  if bytes.length < byteCount then none
  else some ((bytes.take byteCount).foldr (fun b acc => b + 256 * acc) 0,
    bytes.drop byteCount)

namespace Metadata

/-- The fixed magic marker: ASCII meta read as a little-endian 32-bit
integer (the constant 6174656d in the source). -/
def MAGIC_NUMBER : ℕ := 0x6174656d

/-- Shallow embedding of Metadata.decode.  The version-specific structural
parsers (MetadataV11.decode, MetadataV12.decode) live outside the embedded
sources, so they are parameters; both receive the full raw blob, as in the
source.  The magic marker is asserted first, then the version byte selects
the parser, and any other version raises the unsupported-version error. -/
def decode (parseV11 parseV12 : List ℕ → Except MetadataDecodeError MetadataDecorator)
    (raw : List ℕ) : Except MetadataDecodeError MetadataDecorator :=
  match decodeNextIntLE 32 raw with
  | none => Except.error MetadataDecodeError.truncated
  | some (magicNumber, rest) =>
    if magicNumber ≠ MAGIC_NUMBER then Except.error MetadataDecodeError.invalidMagic
    else
      match decodeNextIntLE 8 rest with
      | none => Except.error MetadataDecodeError.truncated
      | some (version, _) =>
        if version = 12 then parseV12 raw
        else if version = 11 then parseV11 raw
        else Except.error (MetadataDecodeError.unsupportedVersion version)

end Metadata

/-! ## SubstrateNodeClient.initApi

The lazy, memoized initialization of metadata and runtime version.  The
mutable field initApiPromise starts unset; the first call issues the RPCs.
On success the then-handler stores a resolved promise.  On failure the catch
handler stores the rejected inner promise itself (the comment in the source
reads retry once) and, because the catch swallowed the rejection, the
promise returned to the first caller resolves.  Nothing ever resets the
field to null afterwards, so later calls return the stored rejected promise
without issuing any RPC.

The model covers the failure path the code itself produces: state_getMetadata
succeeds while the runtime version is unobtainable (getRuntimeVersion
resolves null and the executor calls reject; it then still decodes and
assigns the metadata before its resolve call is ignored).  A transport
failure of state_getMetadata itself would leave the inner promise forever
pending, which is outside this state model and even further from a retry. -/

namespace SubstrateNodeClient

/-- The value held by the private initApiPromise field. -/
inductive InitApiField where
  | unset
  | resolvedOk
  | rejectedErr (msg : String)
  deriving DecidableEq, Repr

/-- The mutable state of a node client that initApi touches. -/
structure ClientState where
  initApiPromise : InitApiField
  metadata : Option MetadataDecorator
  runtimeVersion : Option ℕ
  deriving DecidableEq, Repr

/-- What one initApi call observably did: whether it contacted the node
(the state_getMetadata and state_getRuntimeVersion RPCs) and whether the
promise handed back to the caller resolved. -/
structure InitCallResult where
  rpcIssued : Bool
  succeeded : Bool
  deriving DecidableEq, Repr

/-- Shallow embedding of one SubstrateNodeClient.initApi call.  The node's
behaviour, consulted only when a fetch is actually issued, is the pair of
arguments: the decoded metadata and the runtime version (none when the node
did not report one). -/
def initApi (s : ClientState) (md : MetadataDecorator) (runtimeVersion : Option ℕ) :
    ClientState × InitCallResult :=
  match s.initApiPromise with
  | InitApiField.resolvedOk => (s, InitCallResult.mk false true)
  | InitApiField.rejectedErr _ => (s, InitCallResult.mk false false)
  | InitApiField.unset =>
    match runtimeVersion with
    | some v =>
        (ClientState.mk InitApiField.resolvedOk (some md) (some v),
         InitCallResult.mk true true)
    | none =>
        (ClientState.mk
          (InitApiField.rejectedErr "Could not fetch runtime version from the node")
          (some md) none,
         InitCallResult.mk true true)

end SubstrateNodeClient

/-! ## IEEE 754 double precision, modelled exactly over the rationals

The chunking utility computes its chunk indices in JavaScript number
arithmetic.  A JavaScript number is an IEEE 754 binary64 value; every
arithmetic result is the exact rational result rounded to 53 significand
bits, to nearest, ties to even.  The magnitudes involved here are far from
overflow and subnormal range, so rounding is the whole story. -/

namespace JSNumber

/-- Exponent search, upward: the exponent e with 2 ^ e ≤ q < 2 ^ (e + 1) for
q ≥ 1, found by repeated halving (fuel-bounded; the fuel is ample for every
value this development evaluates). -/
def expUp : ℕ → ℚ → ℤ → ℤ
  | 0, _, e => e
  | fuel + 1, q, e => if q < 2 then e else expUp fuel (q / 2) (e + 1)

/-- Exponent search, downward: the exponent e with 2 ^ e ≤ q < 2 ^ (e + 1)
for 0 < q < 1, found by repeated doubling. -/
def expDown : ℕ → ℚ → ℤ → ℤ
  | 0, _, e => e
  | fuel + 1, q, e => if 1 ≤ q then e else expDown fuel (q * 2) (e - 1)

/-- Binary exponent of a positive rational. -/
def binExp (q : ℚ) : ℤ :=
  if 1 ≤ q then expUp 4200 q 0 else expDown 4200 q 0

/-- Integer power of two as a rational, for both exponent signs. -/
def pow2 (k : ℤ) : ℚ :=
  if 0 ≤ k then ((2 ^ k.toNat : ℕ) : ℚ) else 1 / ((2 ^ (-k).toNat : ℕ) : ℚ)

/-- Round a nonnegative rational to an integer, to nearest, ties to even. -/
def roundTiesEven (x : ℚ) : ℤ :=
  let f := ⌊x⌋
  let r := x - (f : ℚ)
  if r < 1 / 2 then f
  else if 1 / 2 < r then f + 1
  else if f % 2 = 0 then f else f + 1

/-- Round an exact rational to the nearest binary64 value (53 significand
bits, round to nearest, ties to even). -/
def toDouble (q : ℚ) : ℚ :=
  if q = 0 then 0
  else if 0 < q then
    let e := binExp q
    (roundTiesEven (q * pow2 (52 - e)) : ℚ) * pow2 (e - 52)
  else
    let e := binExp (-q)
    let m : ℚ := (roundTiesEven (-q * pow2 (52 - e)) : ℚ) * pow2 (e - 52)
    Neg.neg m

/-- JavaScript division: the exact quotient, correctly rounded. -/
def div (a b : ℚ) : ℚ := toDouble (a / b)

/-- JavaScript multiplication of two binary64 values: the exact product,
correctly rounded. -/
def mul (a b : ℚ) : ℚ := toDouble (a * b)

end JSNumber

/-! ## utils/array.ts: chunkedArray and flattenArray

chunkedArray allocates new Array(Math.ceil(length * (1 / chunkSize))) - an
array of holes - and assigns chunks[Math.floor(i * (1 / chunkSize))] =
array.slice(i, i + chunkSize) for i = 0, chunkSize, 2 * chunkSize, ...
A JavaScript array with holes is modelled as a list of Option values;
assignment beyond the current length extends the array with holes.
flattenArray folds concat over the array with initial value []; reduce
skips holes, so a hole contributes nothing. -/

namespace ArrayUtils

/-- JavaScript array element assignment: within bounds it overwrites, past
the end it pads with holes and appends. -/
def setAt (l : List (Option α)) (i : ℕ) (v : α) : List (Option α) :=
  if i < l.length then l.set i (some v)
  else l ++ List.replicate (i - l.length) none ++ [some v]

/-- The assignment loop of chunkedArray: while i < length, store the slice
a.slice(i, i + chunkSize) at index Math.floor(i * chunkSizeInverse), where
chunkSizeInverse and the product are binary64 values.  Fuel bounds the loop
(one extra step per list element is ample for every chunkSize ≥ 1). -/
def chunkedLoop (a : List α) (chunkSize : ℕ) (chunkSizeInverse : ℚ) :
    ℕ → ℕ → List (Option (List α)) → List (Option (List α))
  | 0, _, chunks => chunks
  | fuel + 1, i, chunks =>
    if i < a.length then
      chunkedLoop a chunkSize chunkSizeInverse fuel (i + chunkSize)
        (setAt chunks (⌊JSNumber.mul (i : ℚ) chunkSizeInverse⌋.toNat)
          ((a.drop i).take chunkSize))
    else chunks

/-- Shallow embedding of chunkedArray: the chunk index is computed through
the double-precision reciprocal 1 / chunkSize, exactly as the source does. -/
def chunkedArray (a : List α) (chunkSize : ℕ) : List (Option (List α)) :=
  let chunkSizeInverse : ℚ := JSNumber.div 1 (chunkSize : ℚ)
  let size : ℕ := (⌈JSNumber.mul (a.length : ℚ) chunkSizeInverse⌉).toNat
  chunkedLoop a chunkSize chunkSizeInverse (a.length + 1) 0 (List.replicate size none)

/-- Shallow embedding of flattenArray, applied to a possibly-holed array:
reduce visits the present elements in order and concatenates them. -/
def flattenArray (chunks : List (Option (List α))) : List α :=
  chunks.foldl (fun acc o =>
    match o with
    | some next => acc ++ next
    | none => acc) []

end ArrayUtils

/-! ## SubstrateProtocol.getBalanceOfAddresses (and the identical
PolkadotProtocol.getBalanceOfAddresses)

The per-address balances are summed with Array.prototype.reduce WITHOUT an
initial value: on a non-empty list this folds from the first element, on the
empty list JavaScript throws a TypeError, so the call fails instead of
returning a zero balance. -/

namespace SubstrateProtocol

/-- JavaScript Array.prototype.reduce without an initial value: none on the
empty array (the thrown TypeError), otherwise the fold from the head. -/
def reduceNoInitial (f : α → α → α) : List α → Option α
  | [] => none
  | x :: xs => some (xs.foldl f x)

/-- Shallow embedding of getBalanceOfAddresses: the fetched per-address
balances become the argument list; the sum is rendered with toString(10). -/
def getBalanceOfAddresses (balances : List ℤ) : Option String :=
  (reduceNoInitial (· + ·) balances).map toString

end SubstrateProtocol

/-! ## Concrete test fixtures and proof infrastructure -/

/-- Equality of decoded results is decidable; Except carries no instance of
its own in this toolchain. -/
instance {ε α : Type} [DecidableEq ε] [DecidableEq α] : DecidableEq (Except ε α)
  | Except.error e, Except.error f => decidable_of_iff (e = f) (by simp)
  | Except.error _, Except.ok _ => isFalse (by simp)
  | Except.ok _, Except.error _ => isFalse (by simp)
  | Except.ok a, Except.ok b => decidable_of_iff (a = b) (by simp)

/-- A 300-entry exposure list with pairwise distinct stakes, ordered
stake-descending: entry i carries address i and stake 300 - i, so the
nominator ranked k-th by stake (1-based) is the one with address k - 1. -/
def c1ExposureList : List SubstrateExposureEntry :=
  (List.range 300).map (fun i => SubstrateExposureEntry.mk i ((300 : ℚ) - (i : ℚ)))

attribute [local semireducible] Rat.mul Rat.add Rat.sub Rat.inv

set_option maxRecDepth 8000

/-- Folding addition from an arbitrary start is the start plus the sum. -/
theorem foldl_add_eq_add_sum (l : List ℤ) : ∀ a : ℤ, l.foldl (· + ·) a = a + l.sum := by
  induction l with
  | nil => intro a; simp
  | cons x xs ih =>
      intro a
      simp only [List.foldl_cons, List.sum_cons, ih]
      ring

/-! ## Claim theorems -/

/-- Claim C2: for every account whose account info is obtainable,
getTransferableBalance returns free - reserved - locked - (existential
deposit if excludeExistentialDeposit), where locked is the miscFrozen lock
when ignoreFees is true and the feeFrozen lock otherwise; a negative result
is passed through unclamped; and the example with free 1000, reserved 0,
miscFrozen 0, existential deposit 1 and both flags set yields exactly 999. -/
theorem transferable_balance_formula :
    (∀ (d : SubstrateAccountController.SubstrateAccountData) (ed : ℤ)
      (excludeExistentialDeposit ignoreFees : Bool),
      SubstrateAccountController.getTransferableBalance (some d) ed
          excludeExistentialDeposit ignoreFees =
        d.free - d.reserved - (if ignoreFees then d.miscFrozen else d.feeFrozen) -
          (if excludeExistentialDeposit then ed else 0))
  ∧ SubstrateAccountController.getTransferableBalance
      (some (SubstrateAccountController.SubstrateAccountData.mk 1000 0 0 0)) 1 true true = 999
  ∧ SubstrateAccountController.getTransferableBalance
      (some (SubstrateAccountController.SubstrateAccountData.mk 0 0 0 0)) 1 true true = -1 := by
  refine ⟨?_, by decide, by decide⟩
  intro d ed excl ign
  cases excl <;> cases ign <;>
    simp [SubstrateAccountController.getTransferableBalance]

/-- Claim C9: for an account the node reports no account info for,
getTransferableBalance returns exactly 0 for every combination of the two
flags and every existential deposit; the subtraction formula is not applied. -/
theorem transferable_balance_absent_account :
    ∀ (ed : ℤ) (excludeExistentialDeposit ignoreFees : Bool),
      SubstrateAccountController.getTransferableBalance none ed
        excludeExistentialDeposit ignoreFees = 0 := by
  intro ed excl ign
  rfl

/-- Claim C5: while the era election is open, the list of available
delegation actions is empty, whatever the bonded, nominating, unbonding,
withdrawable-funds and balance state of the account, and whatever ordinal
the final sort uses. -/
theorem election_open_no_actions :
    ∀ (stakingDetails : Option SubstrateAccountController.SubstrateStakingDetails)
      (nominations : Option (List ℕ)) (validatorIds : List ℕ)
      (maxDelegationValue existentialDeposit : ℤ)
      (ord : SubstrateStakingActionType → ℤ),
      SubstrateAccountController.getAvailableStakingActions stakingDetails nominations
        validatorIds maxDelegationValue existentialDeposit
        (some SubstrateElectionStatus.Open) ord = [] := by
  intro sd noms vids maxV ed ord
  simp [SubstrateAccountController.getAvailableStakingActions,
    SubstrateAccountController.sortByOrdinal]

/-- Claim C10: getBalanceOfAddresses sums the per-address balances and
renders the sum in base 10 for every non-empty address list, but on the
empty list the initial-value-less reduce fails instead of returning 0. -/
theorem balance_of_addresses_sum :
    (∀ (b : ℤ) (bs : List ℤ),
      SubstrateProtocol.getBalanceOfAddresses (b :: bs) = some (toString (b + bs.sum)))
  ∧ SubstrateProtocol.getBalanceOfAddresses [] = none := by
  refine ⟨?_, rfl⟩
  intro b bs
  simp [SubstrateProtocol.getBalanceOfAddresses, SubstrateProtocol.reduceNoInitial,
    foldl_add_eq_add_sum]

/-- Claim C3 (code bug): after a failed lazy initialization (the node
reported no runtime version), the failure is cached, contradicting the
specified retry-from-scratch behaviour: the first caller is even handed a
resolved promise, and the next call, with the node healthy again, issues no
RPC at all, fails with the stored rejection, and leaves the same rejected
state in place forever. -/
theorem init_api_failure_cached :
    (SubstrateNodeClient.initApi
        (SubstrateNodeClient.ClientState.mk SubstrateNodeClient.InitApiField.unset none none)
        (MetadataDecorator.mk 7) none).2 = SubstrateNodeClient.InitCallResult.mk true true
  ∧ (SubstrateNodeClient.initApi
        (SubstrateNodeClient.initApi
          (SubstrateNodeClient.ClientState.mk SubstrateNodeClient.InitApiField.unset none none)
          (MetadataDecorator.mk 7) none).1
        (MetadataDecorator.mk 7) (some 42)).2 = SubstrateNodeClient.InitCallResult.mk false false
  ∧ (SubstrateNodeClient.initApi
        (SubstrateNodeClient.initApi
          (SubstrateNodeClient.ClientState.mk SubstrateNodeClient.InitApiField.unset none none)
          (MetadataDecorator.mk 7) none).1
        (MetadataDecorator.mk 7) (some 42)).1.initApiPromise =
      SubstrateNodeClient.InitApiField.rejectedErr
        "Could not fetch runtime version from the node" := by
  refine ⟨rfl, rfl, rfl⟩

/-- Claim C1 (counterexample): on a 300-entry exposure list the nominator
ranked 257th by stake (0-based position 256, which is above the fixed
maximum of 256) gets ACTIVE, not OVERSUBSCRIBED: the code compares the
0-based position strictly against 256, so the 257th-ranked nominator is
still reported active. -/
theorem nomination_status_rank257_not_oversubscribed :
    c1ExposureList.length = 300
  ∧ SubstrateAccountController.sortedPosition c1ExposureList 256 = 256
  ∧ SubstrateAccountController.getNominationStatus 256 1000 (some 1) none (some [1000])
      (some (SubstrateExposure.mk 100 0 c1ExposureList)) =
      Except.ok (some SubstrateNominationStatus.active)
  ∧ SubstrateAccountController.getNominationStatus 256 1000 (some 1) none (some [1000])
      (some (SubstrateExposure.mk 100 0 c1ExposureList)) ≠
      Except.ok (some SubstrateNominationStatus.oversubscribed) := by
  refine ⟨by decide, by decide, by decide, by decide⟩

/-- Claim C1 (amended): for a nominator that nominates the validator and
appears in the exposure list, the status is OVERSUBSCRIBED exactly when the
list has more than 256 entries and the 0-based stake-descending position
exceeds 256 (1-based rank 258 or worse), and ACTIVE otherwise; a nominator
absent from the exposure list is INACTIVE.  On the 300-entry list, the
258th-ranked nominator is OVERSUBSCRIBED, while the 257th-ranked and the
100th-ranked are ACTIVE and an absent account is INACTIVE. -/
theorem nomination_status_threshold :
    (∀ (nominator validator e : ℕ) (activeEra : Option ℕ) (targets : List ℕ)
      (exp : SubstrateExposure),
      targets.any (fun t => t == validator) = true →
      exp.others.any (fun en => en.addr == nominator) = true →
      SubstrateAccountController.getNominationStatus nominator validator (some e) activeEra
          (some targets) (some exp) =
        Except.ok (some (if 256 < exp.others.length ∧
            256 < SubstrateAccountController.sortedPosition exp.others nominator then
          SubstrateNominationStatus.oversubscribed
        else SubstrateNominationStatus.active)))
  ∧ (∀ (nominator validator e : ℕ) (activeEra : Option ℕ) (targets : List ℕ)
      (exp : SubstrateExposure),
      targets.any (fun t => t == validator) = true →
      exp.others.any (fun en => en.addr == nominator) = false →
      SubstrateAccountController.getNominationStatus nominator validator (some e) activeEra
          (some targets) (some exp) =
        Except.ok (some SubstrateNominationStatus.inactive))
  ∧ SubstrateAccountController.getNominationStatus 257 1000 (some 1) none (some [1000])
      (some (SubstrateExposure.mk 100 0 c1ExposureList)) =
      Except.ok (some SubstrateNominationStatus.oversubscribed)
  ∧ SubstrateAccountController.getNominationStatus 99 1000 (some 1) none (some [1000])
      (some (SubstrateExposure.mk 100 0 c1ExposureList)) =
      Except.ok (some SubstrateNominationStatus.active)
  ∧ SubstrateAccountController.getNominationStatus 5000 1000 (some 1) none (some [1000])
      (some (SubstrateExposure.mk 100 0 c1ExposureList)) =
      Except.ok (some SubstrateNominationStatus.inactive) := by
  refine ⟨?_, ?_, by decide, by decide, by decide⟩
  · intro nominator validator e activeEra targets exp h1 h2
    simp only [SubstrateAccountController.getNominationStatus, h1, h2]
    by_cases hl : 256 < exp.others.length
    · by_cases hp : 256 < SubstrateAccountController.sortedPosition exp.others nominator
      · simp [hl, hp]
      · simp [hl, hp]
    · simp [hl]
  · intro nominator validator e activeEra targets exp h1 h2
    simp only [SubstrateAccountController.getNominationStatus, h1, h2]
    simp

/-- Claim C1 (witness): the amended threshold rule applied at a one-entry
exposure list in which the nominator appears. -/
theorem nomination_status_threshold_witness :
    ([5].any (fun t => t == 5) = true)
  ∧ ([SubstrateExposureEntry.mk 7 10].any (fun en => en.addr == 7) = true)
  ∧ SubstrateAccountController.getNominationStatus 7 5 (some 0) none (some [5])
      (some (SubstrateExposure.mk 10 0 [SubstrateExposureEntry.mk 7 10])) =
      Except.ok (some (if 256 < ([SubstrateExposureEntry.mk 7 10] :
            List SubstrateExposureEntry).length ∧
          256 < SubstrateAccountController.sortedPosition
            [SubstrateExposureEntry.mk 7 10] 7 then
        SubstrateNominationStatus.oversubscribed
      else SubstrateNominationStatus.active)) :=
  ⟨by decide, by decide,
    nomination_status_threshold.1 7 5 0 none [5]
      (SubstrateExposure.mk 10 0 [SubstrateExposureEntry.mk 7 10]) (by decide) (by decide)⟩

/-- Claim C6 (counterexample): the reward formulas do not hold with exact
rational division, because dividedBy rounds to 20 decimal places: with
total payout 3, total points 3 and validator points 1 the computed validator
reward is 0.99999999999999999999, not (1 / 3) * 3 = 1, and the nominator
reward (commission 0, stakes 1 of 1) inherits the defect. -/
theorem reward_rounding_counterexample :
    SubstrateAccountController.calculateValidatorReward 3 3 1 =
      (99999999999999999999 : ℚ) / 100000000000000000000
  ∧ SubstrateAccountController.calculateValidatorReward 3 3 1 ≠ (1 / 3) * 3
  ∧ SubstrateAccountController.calculateNominatorReward
      (SubstrateAccountController.calculateValidatorReward 3 3 1) 0 1 1 ≠
      (1 - 0 / 10 ^ 9) * ((1 / 3) * 3) * (1 / 1) := by
  refine ⟨by decide, by decide, by decide⟩

/-- Claim C6 (amended): the validator and nominator rewards equal the
specified formulas whenever each quotient (validator points share,
commission as parts per billion, nominator stake share) is exactly
representable in 20 decimal places - the rounding applied by the BigNumber
division - and in particular the example with payout 100, points 250 of
1000, commission 100000000 and stake 500 of 5000 yields exactly 2.25. -/
theorem reward_formula_rounded :
    (∀ R P p c S s : ℚ,
      (p / P * 10 ^ 20).den = 1 →
      (c / 1000000000 * 10 ^ 20).den = 1 →
      (s / S * 10 ^ 20).den = 1 →
      SubstrateAccountController.calculateNominatorReward
          (SubstrateAccountController.calculateValidatorReward R P p) c S s =
        (1 - c / 1000000000) * (p / P * R) * (s / S))
  ∧ SubstrateAccountController.calculateValidatorReward 100 1000 250 = 25
  ∧ SubstrateAccountController.calculateNominatorReward
      (SubstrateAccountController.calculateValidatorReward 100 1000 250)
      100000000 5000 500 = 9 / 4 := by
  refine ⟨?_, by decide, by decide⟩
  intro R P p c S s h1 h2 h3
  simp only [SubstrateAccountController.calculateValidatorReward,
    SubstrateAccountController.calculateNominatorReward]
  rw [BigNumber.dividedBy_eq_of_den_dvd _ _ h1, BigNumber.dividedBy_eq_of_den_dvd _ _ h2,
    BigNumber.dividedBy_eq_of_den_dvd _ _ h3]

/-- Claim C6 (witness): the rounded-formula theorem applied at the worked
example, whose three quotients are all exact in 20 decimal places. -/
theorem reward_formula_rounded_witness :
    ((250 : ℚ) / 1000 * 10 ^ 20).den = 1
  ∧ ((100000000 : ℚ) / 1000000000 * 10 ^ 20).den = 1
  ∧ ((500 : ℚ) / 5000 * 10 ^ 20).den = 1
  ∧ SubstrateAccountController.calculateNominatorReward
      (SubstrateAccountController.calculateValidatorReward 100 1000 250)
      100000000 5000 500 =
      (1 - 100000000 / 1000000000) * (250 / 1000 * 100) * (500 / 5000) :=
  ⟨by decide, by decide, by decide,
    reward_formula_rounded.1 100 1000 250 100000000 5000 500
      (by decide) (by decide) (by decide)⟩

/-- Claim C8 (code bug): chunking then flattening is not the identity.  The
chunk index is computed as Math.floor(i * (1 / chunkSize)) in binary64
arithmetic, and 49 * (1 / 49) rounds to just below 1, so for a 98-element
array with chunk size 49 the second chunk lands at index 0, overwriting the
first chunk; index 1 stays a hole, which reduce skips, and the round trip
loses the first 49 elements.  The first conjunct pins the binary64
reciprocal used, and the last shows a benign chunk size for contrast. -/
theorem chunked_array_roundtrip_fails :
    JSNumber.div 1 49 = (5882252574524729 : ℚ) / 288230376151711744
  ∧ ArrayUtils.chunkedArray (List.range 98) 49 = [some ((List.range 98).drop 49), none]
  ∧ ArrayUtils.flattenArray (ArrayUtils.chunkedArray (List.range 98) 49) =
      (List.range 98).drop 49
  ∧ ArrayUtils.flattenArray (ArrayUtils.chunkedArray (List.range 98) 49) ≠ List.range 98
  ∧ ArrayUtils.flattenArray (ArrayUtils.chunkedArray (List.range 10) 3) = List.range 10 := by
  refine ⟨by decide, by decide, by decide, by decide, by decide⟩

/-- Claim C4 (counterexample): in the legacy PolkadotNodeClient.getRewards,
an era whose validator exposure is missing still yields a reward entry, with
the missing data standing in as amount 0: with era reward 100, era points
present and the staking ledger present, but no clipped exposure for the
single validator, the query for era 4 returns one entry of amount 0. -/
theorem legacy_get_rewards_zero_entry :
    PolkadotNodeClient.getRewards 1 [2] 5 1 (fun _ => some 100)
      (fun _ => some (SubstrateEraRewardPoints.mk 10 [SubstrateIndividualPoints.mk 2 10]))
      (fun _ => some 0) (fun _ _ => none)
      (some (PolkadotNodeClient.PolkadotLedger.mk none)) =
      [PolkadotNodeClient.PolkadotReward.mk 4 0 [] 0 false] := by
  decide

/-- Claim C4 (amended): in SubstrateAccountController, an era produces no
reward entry exactly when its reward pool is missing, its reward points are
missing, or no queried validator has complete data (commission, exposure,
reward points and the nominator stake all present); when an entry is
produced, at least one validator is complete and the amount is the rounded
sum of exactly the complete validators' computed rewards; and every entry of
getNominatorRewards arises from such an era.  (The legacy
PolkadotNodeClient.getRewards instead emits zero contributions for
incomplete validators, as the counterexample shows.) -/
theorem era_reward_requires_complete_data :
    (∀ (acct : ℕ) (era : ℤ) (rw : ℚ) (rp : SubstrateEraRewardPoints)
      (vd : List SubstrateAccountController.EraValidatorData),
      SubstrateAccountController.calculateEraNominatorReward acct era (some rw) (some rp)
          vd = none ↔
        ∀ v ∈ vd, SubstrateAccountController.eraValidatorContribution rw rp acct v = none)
  ∧ (∀ (acct : ℕ) (era : ℤ) (rp : Option SubstrateEraRewardPoints)
      (vd : List SubstrateAccountController.EraValidatorData),
      SubstrateAccountController.calculateEraNominatorReward acct era none rp vd = none)
  ∧ (∀ (acct : ℕ) (era : ℤ) (rw : ℚ)
      (vd : List SubstrateAccountController.EraValidatorData),
      SubstrateAccountController.calculateEraNominatorReward acct era (some rw) none vd = none)
  ∧ (∀ (acct : ℕ) (era : ℤ) (rw : ℚ) (rp : SubstrateEraRewardPoints)
      (vd : List SubstrateAccountController.EraValidatorData)
      (e : SubstrateAccountController.SubstrateNominatorRewardDetails),
      SubstrateAccountController.calculateEraNominatorReward acct era (some rw) (some rp)
          vd = some e →
        vd.filterMap (SubstrateAccountController.eraValidatorContribution rw rp acct) ≠ []
        ∧ e.amount = BigNumber.toFixed0
            ((vd.filterMap
              (SubstrateAccountController.eraValidatorContribution rw rp acct)).foldl
                (· + ·) 0))
  ∧ (∀ (acct : ℕ) (activeEraIndex : ℤ) (activeEraStart : Option ℚ)
      (expectedEraDuration : ℚ) (eraData : List SubstrateAccountController.EraInput)
      (entry : SubstrateAccountController.SubstrateNominatorRewardDetails),
      entry ∈ SubstrateAccountController.getNominatorRewards acct activeEraIndex
        activeEraStart expectedEraDuration eraData →
      ∃ d ∈ eraData, ∃ e0,
        SubstrateAccountController.calculateEraNominatorReward acct d.eraIndex d.reward
          d.rewardPoints d.validatorData = some e0 ∧
        entry = SubstrateAccountController.patchTimestamp activeEraIndex activeEraStart
          expectedEraDuration e0) := by
  refine ⟨?_, ?_, ?_, ?_, ?_⟩
  · intro acct era rw rp vd
    have key : (SubstrateAccountController.calculateEraNominatorReward acct era (some rw)
        (some rp) vd = none) ↔
        vd.filterMap (SubstrateAccountController.eraValidatorContribution rw rp acct) = [] := by
      simp only [SubstrateAccountController.calculateEraNominatorReward]
      by_cases h :
        vd.filterMap (SubstrateAccountController.eraValidatorContribution rw rp acct) = []
      · simp [h]
      · simp [List.isEmpty_iff, h]
    rw [key, List.filterMap_eq_nil_iff]
  · intro acct era rp vd
    rfl
  · intro acct era rw vd
    rfl
  · intro acct era rw rp vd e hsome
    simp only [SubstrateAccountController.calculateEraNominatorReward] at hsome
    by_cases h :
      vd.filterMap (SubstrateAccountController.eraValidatorContribution rw rp acct) = []
    · simp [h] at hsome
    · rw [if_neg (by simp [List.isEmpty_iff, h])] at hsome
      refine ⟨h, ?_⟩
      rw [← Option.some_inj.mp hsome]
  · intro acct activeEraIndex activeEraStart expectedEraDuration eraData entry hmem
    simp only [SubstrateAccountController.getNominatorRewards] at hmem
    obtain ⟨o, ho, hid⟩ := List.mem_filterMap.mp hmem
    obtain ⟨d, hd, hod⟩ := List.mem_map.mp ho
    rw [← hod] at hid
    simp only [id_eq] at hid
    obtain ⟨e0, he0, heq⟩ := Option.map_eq_some'.mp hid
    exact ⟨d, hd, e0, he0, heq.symm⟩

/-- Claim C4 (witness): the complete-data characterization applied at a
concrete era with one complete validator: the entry exists and its amount is
the rounded sum of the computed contributions. -/
theorem era_reward_requires_complete_data_witness :
    SubstrateAccountController.calculateEraNominatorReward 1 4 (some 100)
      (some (SubstrateEraRewardPoints.mk 10 [SubstrateIndividualPoints.mk 2 10]))
      [SubstrateAccountController.EraValidatorData.mk 2 (some 0)
        (some (SubstrateExposure.mk 10 5 [SubstrateExposureEntry.mk 1 5]))] =
      some (SubstrateAccountController.SubstrateNominatorRewardDetails.mk 4 50 [(2, 0)] 0)
  ∧ ([SubstrateAccountController.EraValidatorData.mk 2 (some 0)
        (some (SubstrateExposure.mk 10 5 [SubstrateExposureEntry.mk 1 5]))].filterMap
      (SubstrateAccountController.eraValidatorContribution 100
        (SubstrateEraRewardPoints.mk 10 [SubstrateIndividualPoints.mk 2 10]) 1) ≠ []
    ∧ (SubstrateAccountController.SubstrateNominatorRewardDetails.mk 4 50 [(2, 0)]
        (0 : ℚ)).amount = BigNumber.toFixed0
        (([SubstrateAccountController.EraValidatorData.mk 2 (some 0)
            (some (SubstrateExposure.mk 10 5 [SubstrateExposureEntry.mk 1 5]))].filterMap
          (SubstrateAccountController.eraValidatorContribution 100
            (SubstrateEraRewardPoints.mk 10 [SubstrateIndividualPoints.mk 2 10]) 1)).foldl
            (· + ·) 0)) :=
  ⟨by decide,
    era_reward_requires_complete_data.2.2.2.1 1 4 100
      (SubstrateEraRewardPoints.mk 10 [SubstrateIndividualPoints.mk 2 10])
      [SubstrateAccountController.EraValidatorData.mk 2 (some 0)
        (some (SubstrateExposure.mk 10 5 [SubstrateExposureEntry.mk 1 5]))]
      (SubstrateAccountController.SubstrateNominatorRewardDetails.mk 4 50 [(2, 0)] 0)
      (by decide)⟩

/-- Reduction of Metadata.decode on a buffer of at least five bytes: the
little-endian 32-bit magic is read from the first four bytes, the version
from the fifth. -/
theorem metadata_decode_cons
    (parseV11 parseV12 : List ℕ → Except MetadataDecodeError MetadataDecorator)
    (b0 b1 b2 b3 v : ℕ) (rest : List ℕ) :
    Metadata.decode parseV11 parseV12 (b0 :: b1 :: b2 :: b3 :: v :: rest) =
      if b0 + 256 * (b1 + 256 * (b2 + 256 * (b3 + 256 * 0))) ≠ Metadata.MAGIC_NUMBER then
        Except.error MetadataDecodeError.invalidMagic
      else if v = 12 then parseV12 (b0 :: b1 :: b2 :: b3 :: v :: rest)
      else if v = 11 then parseV11 (b0 :: b1 :: b2 :: b3 :: v :: rest)
      else Except.error (MetadataDecodeError.unsupportedVersion v) := by
  simp only [Metadata.decode, decodeNextIntLE]
  norm_num
  rw [if_neg (by omega)]
  norm_num
  simp

/-- The little-endian 32-bit value of four bytes equals the magic marker
exactly when the bytes are ASCII m, e, t, a. -/
theorem le4_eq_magic_iff (b0 b1 b2 b3 : ℕ)
    (h0 : b0 < 256) (h1 : b1 < 256) (h2 : b2 < 256) (h3 : b3 < 256) :
    b0 + 256 * (b1 + 256 * (b2 + 256 * (b3 + 256 * 0))) = Metadata.MAGIC_NUMBER ↔
      b0 = 0x6d ∧ b1 = 0x65 ∧ b2 = 0x74 ∧ b3 = 0x61 := by
  unfold Metadata.MAGIC_NUMBER
  constructor
  · intro h
    omega
  · rintro ⟨rfl, rfl, rfl, rfl⟩
    rfl

/-- Claim C7: on a metadata blob of at least five bytes, decode fails with
the invalid-format error when the leading four bytes are not the ASCII
marker meta, fails with the unsupported-version error when the marker is
right but the version byte is neither 11 nor 12, and in both failure cases
never returns a decoded Metadata value. -/
theorem metadata_decode_failures
    (parseV11 parseV12 : List ℕ → Except MetadataDecodeError MetadataDecorator)
    (b0 b1 b2 b3 v : ℕ) (rest : List ℕ)
    (h0 : b0 < 256) (h1 : b1 < 256) (h2 : b2 < 256) (h3 : b3 < 256) :
    ([b0, b1, b2, b3] ≠ [0x6d, 0x65, 0x74, 0x61] →
      Metadata.decode parseV11 parseV12 (b0 :: b1 :: b2 :: b3 :: v :: rest) =
        Except.error MetadataDecodeError.invalidMagic)
  ∧ ([b0, b1, b2, b3] = [0x6d, 0x65, 0x74, 0x61] → v ≠ 11 → v ≠ 12 →
      Metadata.decode parseV11 parseV12 (b0 :: b1 :: b2 :: b3 :: v :: rest) =
        Except.error (MetadataDecodeError.unsupportedVersion v))
  ∧ (∀ m : MetadataDecorator,
      ([b0, b1, b2, b3] ≠ [0x6d, 0x65, 0x74, 0x61] ∨ (v ≠ 11 ∧ v ≠ 12)) →
      Metadata.decode parseV11 parseV12 (b0 :: b1 :: b2 :: b3 :: v :: rest) ≠
        Except.ok m) := by
  have part1 : [b0, b1, b2, b3] ≠ [0x6d, 0x65, 0x74, 0x61] →
      Metadata.decode parseV11 parseV12 (b0 :: b1 :: b2 :: b3 :: v :: rest) =
        Except.error MetadataDecodeError.invalidMagic := by
    intro hne
    rw [metadata_decode_cons]
    rw [if_pos ?_]
    intro h
    obtain ⟨e0, e1, e2, e3⟩ := (le4_eq_magic_iff b0 b1 b2 b3 h0 h1 h2 h3).mp h
    subst e0; subst e1; subst e2; subst e3
    exact hne rfl
  have part2 : [b0, b1, b2, b3] = [0x6d, 0x65, 0x74, 0x61] → v ≠ 11 → v ≠ 12 →
      Metadata.decode parseV11 parseV12 (b0 :: b1 :: b2 :: b3 :: v :: rest) =
        Except.error (MetadataDecodeError.unsupportedVersion v) := by
    intro heq hv11 hv12
    obtain ⟨e0, e1, e2, e3⟩ : b0 = 0x6d ∧ b1 = 0x65 ∧ b2 = 0x74 ∧ b3 = 0x61 := by
      simpa using heq
    subst e0; subst e1; subst e2; subst e3
    rw [metadata_decode_cons]
    rw [if_neg (by decide)]
    rw [if_neg hv12, if_neg hv11]
  refine ⟨part1, part2, ?_⟩
  intro m hor
  rcases hor with hne | ⟨hv11, hv12⟩
  · rw [part1 hne]
    simp
  · by_cases hb : [b0, b1, b2, b3] = [0x6d, 0x65, 0x74, 0x61]
    · rw [part2 hb hv11 hv12]
      simp
    · rw [part1 hb]
      simp

/-- Claim C7 (witness): the failure contract applied at two five-byte blobs:
one with a wrong marker, one with the right marker and version byte 9. -/
theorem metadata_decode_failures_witness :
    ((0 : ℕ) < 256)
  ∧ ([(0 : ℕ), 0, 0, 0] ≠ [0x6d, 0x65, 0x74, 0x61])
  ∧ Metadata.decode (fun _ => Except.ok (MetadataDecorator.mk 0))
      (fun _ => Except.ok (MetadataDecorator.mk 0)) [0, 0, 0, 0, 9] =
      Except.error MetadataDecodeError.invalidMagic
  ∧ Metadata.decode (fun _ => Except.ok (MetadataDecorator.mk 0))
      (fun _ => Except.ok (MetadataDecorator.mk 0)) [0x6d, 0x65, 0x74, 0x61, 9] =
      Except.error (MetadataDecodeError.unsupportedVersion 9) :=
  ⟨by decide, by decide,
    (metadata_decode_failures (fun _ => Except.ok (MetadataDecorator.mk 0))
      (fun _ => Except.ok (MetadataDecorator.mk 0)) 0 0 0 0 9 []
      (by decide) (by decide) (by decide) (by decide)).1 (by decide),
    (metadata_decode_failures (fun _ => Except.ok (MetadataDecorator.mk 0))
      (fun _ => Except.ok (MetadataDecorator.mk 0)) 0x6d 0x65 0x74 0x61 9 []
      (by decide) (by decide) (by decide) (by decide)).2.1 rfl (by decide) (by decide)⟩
